import Mathlib

/-!
Shallow embedding of src/main.py (mindease chatbot).

The Python module is straight-line glue code around three external services:
an identity provider (HTTP signup / sign-in), a document store (user records
and per-user chat messages), and a completion endpoint. Every external call
can raise; each handler catches all exceptions at its boundary.

Modelling conventions:
- `Session` mirrors the session dict threaded through the UI callbacks.
- Outcomes of external calls are inputs (environment records): an HTTP call
  either raises in transport, raises in raise_for_status, or yields a parsed
  body whose fields may be missing (KeyError is modelled by Option fields);
  a document-store write either succeeds or raises (carrying the exception
  text where the code interpolates it into a message).
- Each embedded function additionally returns the ordered trace of external
  calls it performed (the call is recorded even when the environment makes
  it raise, since the code did issue it); timestamps (datetime.utcnow) are
  Nat parameters supplied by the environment.
- In-place dict/list mutation in Python becomes explicit value passing; the
  embedded result of a function is exactly the tuple the Python function
  returns, with the mutated dict/list replaced by its final value.
-/

namespace Mindease

/-- Session dict: initialised in create_app as logged_in=False, uid=None, email=None. -/
structure Session where
  logged_in : Bool
  uid : Option String
  email : Option String
deriving Repr, DecidableEq

/-- The all-default logged-out session value (gr.State initial value, line 160). -/
def initialSession : Session := { logged_in := false, uid := none, email := none }

/-- Parsed JSON body of an identity-provider response; a missing key models
the KeyError the Python subscript would raise. -/
structure AuthBody where
  localId : Option String
  email : Option String
deriving Repr, DecidableEq

/-- Outcome of an identity-provider HTTP call as the code observes it:
requests.post raises (transportError), raise_for_status raises (httpError),
or res.json() yields a body. -/
inductive AuthResult where
  | transportError
  | httpError
  | success (body : AuthBody)
deriving Repr, DecidableEq

/-- Outcome of the completion HTTP call. badBody models a raise while
extracting choices[0].message.content; every failure carries the exception
text, which the code interpolates into the chat error entry. -/
inductive CompletionResult where
  | transportError (detail : String)
  | httpError (detail : String)
  | badBody (detail : String)
  | ok (reply : String)
deriving Repr, DecidableEq

/-- Exception text of a failed completion call, none when it succeeded. -/
def CompletionResult.failDetail : CompletionResult → Option String
  | .transportError d => some d
  | .httpError d => some d
  | .badBody d => some d
  | .ok _ => none

/-- External calls the module performs, in order. Identity-provider posts and
the completion post are HTTP requests; the rest are document-store operations
(the Persistence Adapter). -/
inductive Effect where
  | signupPost (email password : String)
  | signinPost (email password : String)
  | completionPost (message : String)
  | userSet (uid email : String) (created_at : Nat) (last_login : Option Nat)
  | userUpdate (uid : String) (last_login : Nat)
  | msgAdd (uid role text : String) (time : Nat)
  | historyRead (uid : String)
deriving Repr, DecidableEq

/-- True on document-store (Persistence Adapter) operations. -/
def Effect.isPersistence : Effect → Bool
  | .userSet _ _ _ _ => true
  | .userUpdate _ _ => true
  | .msgAdd _ _ _ _ => true
  | .historyRead _ => true
  | _ => false

/-- True on the completion-endpoint call. -/
def Effect.isCompletion : Effect → Bool
  | .completionPost _ => true
  | _ => false

/-- Environment for signup: the provider response, whether the user-record
write succeeds, and the current time. -/
structure SignupEnv where
  authResult : AuthResult
  setOk : Bool
  now : Nat

def signupOkMsg : String := "🎉 Signup successful! Please login."

def signupErrMsg : String := "❌ Signup Error: Could not create account."

/-- signup (main.py lines 34 to 50): posts to the signup endpoint inside a
try block; on success writes the user record keyed by localId with the input
email, created_at = now, last_login = None, and returns the success string;
any raise (transport, status, missing localId key, store write) falls to the
handler, which returns the error string. -/
def signup (email password : String) (env : SignupEnv) : String × List Effect :=
  let call := Effect.signupPost email password
  match env.authResult with
  | .transportError => (signupErrMsg, [call])
  | .httpError => (signupErrMsg, [call])
  | .success body =>
    match body.localId with
    | none => (signupErrMsg, [call])
    | some uid =>
      let eff := [call, Effect.userSet uid email env.now none]
      if env.setOk then (signupOkMsg, eff) else (signupErrMsg, eff)

/-- Environment for login: the provider response, whether the last_login
update succeeds, and the current time. -/
structure LoginEnv where
  authResult : AuthResult
  updateOk : Bool
  now : Nat

def loginOkMsg : String := "✅ Login successful!"

def loginErrMsg : String := "❌ Invalid email or password."

/-- login (main.py lines 54 to 73): posts to the sign-in endpoint inside a
try block. On a parsed body the code mutates the session dict in place,
field by field, BEFORE the fallible last_login update: logged_in := true,
then uid := body.localId (KeyError here leaves logged_in already set), then
email := body.email, then the store update. Any raise falls to the handler,
which returns the error string together with the session dict in whatever
state the mutations left it. -/
def login (email password : String) (session : Session) (env : LoginEnv) :
    String × Session × List Effect :=
  let call := Effect.signinPost email password
  match env.authResult with
  | .transportError => (loginErrMsg, session, [call])
  | .httpError => (loginErrMsg, session, [call])
  | .success body =>
    let s1 : Session := { session with logged_in := true }
    match body.localId with
    | none => (loginErrMsg, s1, [call])
    | some uid =>
      let s2 : Session := { s1 with uid := some uid }
      match body.email with
      | none => (loginErrMsg, s2, [call])
      | some em =>
        let s3 : Session := { s2 with email := some em }
        let eff := [call, Effect.userUpdate uid env.now]
        if env.updateOk then (loginOkMsg, s3, eff) else (loginErrMsg, s3, eff)

/-- save_message (main.py lines 77 to 82): one add into the per-uid messages
sub-collection. The embedding returns the store call it issues; whether that
call raises is decided by the environment at the call site in mistral_chat. -/
def save_message (uid role text : String) (time : Nat) : Effect :=
  Effect.msgAdd uid role text time

/-- Environment for one mistral_chat invocation: the completion outcome, the
outcomes of the two save_message adds (none = success, some d = raised with
exception text d), the two utcnow timestamps, and the exception text produced
when session uid is None and document(None) raises client-side. -/
structure ChatEnv where
  completionResult : CompletionResult
  addResult1 : Option String
  addResult2 : Option String
  now1 : Nat
  now2 : Nat
  uidNoneDetail : String

def chatGateMsg : String := "❌ Please login to chat."

def chatErrText (detail : String) : String := "❌ Chat Error: " ++ detail

/-- mistral_chat (main.py lines 103 to 131): when not logged in, returns the
unchanged history for the chatbot output and the fresh single-entry list
containing the System gate message as the new chat_history state, with no
external call. Otherwise it posts to the completion endpoint, appends the
pair (You-prefixed message, reply) to history, saves the user message and
the reply, and returns (history, history); any raise after the append falls
to the handler, which appends a System error entry carrying the exception
text and returns (history, history). The result is ((chatbot output,
chat_history output), trace). -/
def mistral_chat (message : String) (history : List (String × String))
    (session : Session) (env : ChatEnv) :
    (List (String × String) × List (String × String)) × List Effect :=
  if session.logged_in = false then
    ((history, [("System", chatGateMsg)]), [])
  else
    let call := Effect.completionPost message
    match env.completionResult with
    | .transportError d =>
      let h := history ++ [("System", chatErrText d)]
      ((h, h), [call])
    | .httpError d =>
      let h := history ++ [("System", chatErrText d)]
      ((h, h), [call])
    | .badBody d =>
      let h := history ++ [("System", chatErrText d)]
      ((h, h), [call])
    | .ok reply =>
      let h1 := history ++ [("You: " ++ message, reply)]
      match session.uid with
      | none =>
        let h2 := h1 ++ [("System", chatErrText env.uidNoneDetail)]
        ((h2, h2), [call])
      | some uid =>
        let e1 := save_message uid "user" message env.now1
        match env.addResult1 with
        | some d =>
          let h2 := h1 ++ [("System", chatErrText d)]
          ((h2, h2), [call, e1])
        | none =>
          let e2 := save_message uid "bot" reply env.now2
          match env.addResult2 with
          | some d =>
            let h2 := h1 ++ [("System", chatErrText d)]
            ((h2, h2), [call, e1, e2])
          | none => ((h1, h1), [call, e1, e2])

def logoutMsg : String := "👋 Logged out successfully."

/-- logout (main.py lines 135 to 139): unconditionally resets the session
fields and returns the message, the reset session, an empty history list and
an empty input string. -/
def logout (_session : Session) :
    String × Session × List (String × String) × String :=
  (logoutMsg, { logged_in := false, uid := none, email := none }, [], "")

/-- One stored chat message document. -/
structure ChatMsg where
  role : String
  text : String
  time : Nat
deriving Repr, DecidableEq

/-- Ordering relation used by the order_by("time") query. -/
def timeLE (a b : ChatMsg) : Prop := a.time ≤ b.time

instance : DecidableRel timeLE := fun a b => Nat.decLe a.time b.time

instance : IsTotal ChatMsg timeLE := ⟨fun a b => Nat.le_total a.time b.time⟩

instance : IsTrans ChatMsg timeLE := ⟨fun _ _ _ => Nat.le_trans⟩

/-- The order_by("time").stream() query on the per-uid messages collection:
a stable sort of the stored insertion-ordered log by timestamp. -/
def fetchOrdered (store : String → List ChatMsg) (uid : String) : List ChatMsg :=
  List.insertionSort timeLE (store uid)

/-- One rendered history line (main.py line 97); fmt abstracts strftime. -/
def renderMsg (fmt : Nat → String) (m : ChatMsg) : String :=
  "**[" ++ m.role ++ "]** (" ++ fmt m.time ++ ") → " ++ m.text ++ "\n\n"

def historyHeader : String := "### 🕒 Chat History\n\n"

def historyGateMsg : String := "❌ Please login to view history."

/-- The accumulation loop of main.py lines 93 to 97. -/
def renderHistory (fmt : Nat → String) (docs : List ChatMsg) : String :=
  docs.foldl (fun acc m => acc ++ renderMsg fmt m) historyHeader

/-- load_history (main.py lines 86 to 99): gate check first, with no store
access; otherwise an ordered read of the uid log rendered into one string.
load_history has no try block, so a raise (document(None) when uid is None)
propagates: result none models an uncaught raise. -/
def load_history (session : Session) (store : String → List ChatMsg)
    (fmt : Nat → String) : Option String × List Effect :=
  if session.logged_in = false then (some historyGateMsg, [])
  else
    match session.uid with
    | none => (none, [])
    | some uid =>
      (some (renderHistory fmt (fetchOrdered store uid)), [Effect.historyRead uid])

/-- A logged-in session as produced by a successful login with uid u1. -/
def loggedInU1 : Session := { logged_in := true, uid := some "u1", email := some "a@x.com" }

/-- A chat environment whose completion call succeeds and whose store writes
succeed, used to instantiate universally quantified theorems. -/
def chatEnvOk : ChatEnv :=
  { completionResult := .ok "Hi there", addResult1 := none, addResult2 := none,
    now1 := 1, now2 := 2, uidNoneDetail := "e" }

/-- C1: for every session with logged_in = false, mistral_chat performs no
external call (no completion request, no store access) and returns the
login-required system entry, and load_history performs no external call and
returns the login-required message. -/
theorem gated_no_calls (message : String) (history : List (String × String))
    (session : Session) (env : ChatEnv) (store : String → List ChatMsg)
    (fmt : Nat → String) (h : session.logged_in = false) :
    mistral_chat message history session env
      = ((history, [("System", chatGateMsg)]), [])
    ∧ load_history session store fmt = (some historyGateMsg, []) := by
  constructor
  · simp [mistral_chat, h]
  · simp [load_history, h]

/-- C1 witness: the initial session is logged out and both gated results are
as stated, with empty effect traces. -/
theorem gated_no_calls_witness :
    initialSession.logged_in = false
    ∧ mistral_chat "hi" [("a", "b")] initialSession chatEnvOk
        = (([("a", "b")], [("System", chatGateMsg)]), [])
    ∧ load_history initialSession (fun _ => []) (fun _ => "")
        = (some historyGateMsg, []) :=
  ⟨rfl,
   (gated_no_calls "hi" [("a", "b")] initialSession chatEnvOk (fun _ => []) (fun _ => "") rfl).1,
   (gated_no_calls "hi" [("a", "b")] initialSession chatEnvOk (fun _ => []) (fun _ => "") rfl).2⟩

/-- C2: failing input for the claim that every failed login returns the prior
session unchanged. The provider accepts the credentials but the last_login
store update raises; login then returns the error string together with a
session already mutated to logged_in = true with the new uid and email, not
the prior (logged-out) session. -/
theorem login_update_failure_mutates :
    login "a@x.com" "pw123456" initialSession
        { authResult := .success { localId := some "u1", email := some "a@x.com" },
          updateOk := false, now := 7 }
      = (loginErrMsg,
         { logged_in := true, uid := some "u1", email := some "a@x.com" },
         [Effect.signinPost "a@x.com" "pw123456", Effect.userUpdate "u1" 7]) := rfl

/-- C3 counterexample: at the non-empty transcript [("a", "b")] with a
logged-out session, neither returned component equals the input transcript
extended by the system entry: the chat_history output is the single fresh
system entry alone. -/
theorem gated_send_not_append :
    ¬ ((mistral_chat "hi" [("a", "b")] initialSession chatEnvOk).1.2
        = [("a", "b"), ("System", chatGateMsg)]) := by
  decide

/-- C3 (amended): the gated send returns the input transcript unchanged as
the displayed component and REPLACES the stored transcript with the
single-entry list [("System", please-login)]; only for an empty input
transcript does this coincide with appending that entry. -/
theorem gated_send_replaces (message : String) (history : List (String × String))
    (session : Session) (env : ChatEnv) (h : session.logged_in = false) :
    mistral_chat message history session env
      = ((history, [("System", chatGateMsg)]), []) := by
  simp [mistral_chat, h]

/-- C3 witness: the amended statement at a concrete non-empty transcript. -/
theorem gated_send_replaces_witness :
    mistral_chat "hi" [("x", "y")] initialSession chatEnvOk
      = (([("x", "y")], [("System", chatGateMsg)]), []) :=
  gated_send_replaces "hi" [("x", "y")] initialSession chatEnvOk rfl

/-- C4 counterexample: a logged-in user sends Hello on an empty transcript and
the completion returns Hi there; the resulting transcript is not
[("Hello", "Hi there")], because the appended entry is
("You: Hello", "Hi there"). -/
theorem chat_entry_not_raw :
    ¬ ((mistral_chat "Hello" [] loggedInU1 chatEnvOk).1.1
        = [("Hello", "Hi there")]) := by
  decide

/-- C4 (amended): for a logged-in session with uid u, when the completion
returns r and both store writes succeed, the transcript gains exactly one
entry pairing "You: " ++ m with r, and exactly two messages are persisted for
u: first role user with the raw text m, then role bot with text r. -/
theorem chat_success_appends (m r u : String) (history : List (String × String))
    (session : Session) (env : ChatEnv)
    (hl : session.logged_in = true) (hu : session.uid = some u)
    (hc : env.completionResult = .ok r)
    (h1 : env.addResult1 = none) (h2 : env.addResult2 = none) :
    mistral_chat m history session env
      = ((history ++ [("You: " ++ m, r)], history ++ [("You: " ++ m, r)]),
         [Effect.completionPost m, Effect.msgAdd u "user" m env.now1,
          Effect.msgAdd u "bot" r env.now2]) := by
  simp [mistral_chat, save_message, hl, hu, hc, h1, h2]

/-- C4 witness: the amended statement at message Hello and reply Hi there. -/
theorem chat_success_appends_witness :
    mistral_chat "Hello" [] loggedInU1 chatEnvOk
      = (([("You: " ++ "Hello", "Hi there")], [("You: " ++ "Hello", "Hi there")]),
         [Effect.completionPost "Hello", Effect.msgAdd "u1" "user" "Hello" 1,
          Effect.msgAdd "u1" "bot" "Hi there" 2]) :=
  chat_success_appends "Hello" "Hi there" "u1" [] loggedInU1 chatEnvOk rfl rfl rfl rfl rfl

/-- C5: for a logged-in session, when the completion call fails (transport
error, error status, or malformed body) with exception text d, mistral_chat
appends exactly one error entry and returns it in both components, the only
external call in the trace is the completion post (no persistence call), and
the session is still logged in. -/
theorem chat_failure_no_persist (m d : String) (history : List (String × String))
    (session : Session) (env : ChatEnv)
    (hl : session.logged_in = true) (hf : env.completionResult.failDetail = some d) :
    mistral_chat m history session env
      = ((history ++ [("System", chatErrText d)], history ++ [("System", chatErrText d)]),
         [Effect.completionPost m])
    ∧ (mistral_chat m history session env).2.filter Effect.isPersistence = []
    ∧ session.logged_in = true := by
  have hmain : mistral_chat m history session env
      = ((history ++ [("System", chatErrText d)], history ++ [("System", chatErrText d)]),
         [Effect.completionPost m]) := by
    cases hc : env.completionResult with
    | transportError e =>
      rw [hc] at hf
      simp only [CompletionResult.failDetail, Option.some.injEq] at hf
      subst hf
      simp [mistral_chat, hl, hc]
    | httpError e =>
      rw [hc] at hf
      simp only [CompletionResult.failDetail, Option.some.injEq] at hf
      subst hf
      simp [mistral_chat, hl, hc]
    | badBody e =>
      rw [hc] at hf
      simp only [CompletionResult.failDetail, Option.some.injEq] at hf
      subst hf
      simp [mistral_chat, hl, hc]
    | ok r =>
      rw [hc] at hf
      simp [CompletionResult.failDetail] at hf
  refine ⟨hmain, ?_, hl⟩
  rw [hmain]
  rfl

/-- C5 witness: a simulated transport error with exception text boom. -/
theorem chat_failure_no_persist_witness :
    mistral_chat "Hello" [("p", "q")] loggedInU1
        { completionResult := .transportError "boom", addResult1 := none,
          addResult2 := none, now1 := 1, now2 := 2, uidNoneDetail := "e" }
      = (([("p", "q"), ("System", chatErrText "boom")],
          [("p", "q"), ("System", chatErrText "boom")]),
         [Effect.completionPost "Hello"]) :=
  (chat_failure_no_persist "Hello" "boom" [("p", "q")] loggedInU1
      { completionResult := .transportError "boom", addResult1 := none,
        addResult2 := none, now1 := 1, now2 := 2, uidNoneDetail := "e" }
      rfl rfl).1

/-- C6: for every input session, when the provider accepts the credentials
with body fields localId = u and email = e and the last_login update
succeeds, login returns the success string and a session with
logged_in = true, uid = u and email = e, and the trace records the
last_login update to the current time for user u. -/
theorem login_success (email password u e : String) (session : Session) (env : LoginEnv)
    (ha : env.authResult = .success { localId := some u, email := some e })
    (hup : env.updateOk = true) :
    login email password session env
      = (loginOkMsg, { logged_in := true, uid := some u, email := some e },
         [Effect.signinPost email password, Effect.userUpdate u env.now]) := by
  simp [login, ha, hup]

/-- C6 witness: a successful login from the initial session. -/
theorem login_success_witness :
    login "a@x.com" "pw123456" initialSession
        { authResult := .success { localId := some "u1", email := some "a@x.com" },
          updateOk := true, now := 7 }
      = (loginOkMsg, { logged_in := true, uid := some "u1", email := some "a@x.com" },
         [Effect.signinPost "a@x.com" "pw123456", Effect.userUpdate "u1" 7]) :=
  login_success "a@x.com" "pw123456" "u1" "a@x.com" initialSession
    { authResult := .success { localId := some "u1", email := some "a@x.com" },
      updateOk := true, now := 7 } rfl rfl

/-- C7 counterexample: the provider accepts signup for a@x.com but the
user-record write raises; signup then returns the error string, which is not
the success string, refuting the provider-accepted clause of the claim. -/
theorem signup_set_failure :
    (signup "a@x.com" "pw123456"
        { authResult := .success { localId := some "u1", email := some "a@x.com" },
          setOk := false, now := 3 }).1 = signupErrMsg
    ∧ signupErrMsg ≠ signupOkMsg :=
  ⟨rfl, by decide⟩

/-- C7 (amended): signup never raises (it is a total function into an outcome
string, always the success or the error string); when the provider accepts
and the user-record write succeeds it performs exactly one user-record write,
keyed by the returned uid, with the given email, created_at = now and
last_login = null, and returns the success string; on a transport error, an
error status, a missing localId field, or a raising record write it returns
the error string. -/
theorem signup_outcomes (email password : String) (env : SignupEnv) :
    ((signup email password env).1 = signupOkMsg
      ∨ (signup email password env).1 = signupErrMsg)
    ∧ (∀ b u, env.authResult = .success b → b.localId = some u → env.setOk = true →
        signup email password env
          = (signupOkMsg, [Effect.signupPost email password,
              Effect.userSet u email env.now none]))
    ∧ (env.authResult = .transportError →
        signup email password env = (signupErrMsg, [Effect.signupPost email password]))
    ∧ (env.authResult = .httpError →
        signup email password env = (signupErrMsg, [Effect.signupPost email password]))
    ∧ (∀ b, env.authResult = .success b → b.localId = none →
        signup email password env = (signupErrMsg, [Effect.signupPost email password]))
    ∧ (∀ b u, env.authResult = .success b → b.localId = some u → env.setOk = false →
        (signup email password env).1 = signupErrMsg) := by
  obtain ⟨ar, so, now⟩ := env
  refine ⟨?_, ?_, ?_, ?_, ?_, ?_⟩
  · cases ar with
    | transportError => exact Or.inr rfl
    | httpError => exact Or.inr rfl
    | success b =>
      cases hb : b.localId with
      | none => exact Or.inr (by simp [signup, hb])
      | some u =>
        cases so with
        | false => exact Or.inr (by simp [signup, hb])
        | true => exact Or.inl (by simp [signup, hb])
  · intro b u hab hu hset
    cases hab
    cases hset
    simp [signup, hu]
  · intro hab
    cases hab
    rfl
  · intro hab
    cases hab
    rfl
  · intro b hab hb
    cases hab
    simp [signup, hb]
  · intro b u hab hu hset
    cases hab
    cases hset
    simp [signup, hu]

/-- C7 witness: a provider-accepted signup whose record write succeeds. -/
theorem signup_outcomes_witness :
    signup "a@x.com" "pw123456"
        { authResult := .success { localId := some "u1", email := some "a@x.com" },
          setOk := true, now := 3 }
      = (signupOkMsg, [Effect.signupPost "a@x.com" "pw123456",
          Effect.userSet "u1" "a@x.com" 3 none]) :=
  (signup_outcomes "a@x.com" "pw123456"
      { authResult := .success { localId := some "u1", email := some "a@x.com" },
        setOk := true, now := 3 }).2.1
    { localId := some "u1", email := some "a@x.com" } "u1" rfl rfl rfl

/-- C8: for every prior session, logout returns the message, the all-default
logged-out session value, an empty transcript and an empty input string. -/
theorem logout_resets (session : Session) :
    logout session = (logoutMsg, initialSession, ([] : List (String × String)), "") := rfl

/-- C9: for a logged-in session with uid u, load_history is idempotent for a
fixed store (no intervening writes), its output is the rendering of the
time-ordered fetch, and the fetched messages are pairwise non-decreasing in
their stored timestamps. -/
theorem load_history_idem_sorted (session : Session) (store : String → List ChatMsg)
    (fmt : Nat → String) (u : String)
    (hl : session.logged_in = true) (hu : session.uid = some u) :
    load_history session store fmt = load_history session store fmt
    ∧ (load_history session store fmt).1
        = some (renderHistory fmt (fetchOrdered store u))
    ∧ (fetchOrdered store u).Pairwise timeLE := by
  refine ⟨rfl, ?_, ?_⟩
  · simp [load_history, hl, hu]
  · exact List.sorted_insertionSort timeLE (store u)

/-- C9 witness: a two-message store written out of time order. -/
theorem load_history_idem_sorted_witness :
    load_history loggedInU1 (fun _ => [⟨"user", "a", 2⟩, ⟨"bot", "b", 1⟩]) (fun _ => "")
      = load_history loggedInU1 (fun _ => [⟨"user", "a", 2⟩, ⟨"bot", "b", 1⟩]) (fun _ => "")
    ∧ (fetchOrdered (fun _ => [⟨"user", "a", 2⟩, ⟨"bot", "b", 1⟩]) "u1").Pairwise timeLE :=
  ⟨(load_history_idem_sorted loggedInU1 (fun _ => [⟨"user", "a", 2⟩, ⟨"bot", "b", 1⟩])
      (fun _ => "") "u1" rfl rfl).1,
   (load_history_idem_sorted loggedInU1 (fun _ => [⟨"user", "a", 2⟩, ⟨"bot", "b", 1⟩])
      (fun _ => "") "u1" rfl rfl).2.2⟩

/-- C10: on a successful chat turn the persisted user message carries the raw
text m while the displayed transcript entry carries "You: " ++ m, and for
every non-empty m the displayed prompt text differs from the persisted user
text. -/
theorem displayed_differs_persisted (m r u : String) (history : List (String × String))
    (session : Session) (env : ChatEnv)
    (hl : session.logged_in = true) (hu : session.uid = some u)
    (hc : env.completionResult = .ok r)
    (h1 : env.addResult1 = none) (h2 : env.addResult2 = none) (_hm : m ≠ "") :
    (mistral_chat m history session env).1.1 = history ++ [("You: " ++ m, r)]
    ∧ (mistral_chat m history session env).2
        = [Effect.completionPost m, Effect.msgAdd u "user" m env.now1,
           Effect.msgAdd u "bot" r env.now2]
    ∧ "You: " ++ m ≠ m := by
  refine ⟨?_, ?_, ?_⟩
  · simp [mistral_chat, save_message, hl, hu, hc, h1, h2]
  · simp [mistral_chat, save_message, hl, hu, hc, h1, h2]
  · intro hEq
    have hlen := congrArg String.length hEq
    rw [String.length_append] at hlen
    have h5 : String.length "You: " = 5 := rfl
    rw [h5] at hlen
    omega

/-- C10 witness: at message Hello the displayed prompt is You-prefixed and the
persisted user text is raw. -/
theorem displayed_differs_persisted_witness :
    ("You: " ++ "Hello" ≠ "Hello")
    ∧ (mistral_chat "Hello" [] loggedInU1 chatEnvOk).2
        = [Effect.completionPost "Hello", Effect.msgAdd "u1" "user" "Hello" 1,
           Effect.msgAdd "u1" "bot" "Hi there" 2] :=
  ⟨(displayed_differs_persisted "Hello" "Hi there" "u1" [] loggedInU1 chatEnvOk
      rfl rfl rfl rfl rfl (by decide)).2.2,
   (displayed_differs_persisted "Hello" "Hi there" "u1" [] loggedInU1 chatEnvOk
      rfl rfl rfl rfl rfl (by decide)).2.1⟩

end Mindease
